import Mathlib

set_option maxHeartbeats 1000000

/-!
Shallow embedding of the awscreds Go package (files: the swapper source,
refresher.go, config source). Machine-level details are modelled as follows:
errors are strings (fmt.Errorf with %w becomes string concatenation with
": "); the stateful factory closure and the mutable credentials handle are
determinized as sequences indexed by an explicit invocation counter carried
in the component state; the atomic.Value cache cell is a sum type covering
the cases the read path distinguishes (empty, a non-nil credentials pointer,
a typed nil credentials pointer, a value of another type); the blocking Run
loop is a function over a finite schedule of select outcomes (context done
or timer tick), returning the final state, the log entries emitted, and
whether the loop returned.
-/

namespace Awscreds

/-- Decidable equality for Except, needed to evaluate concrete witnesses. -/
instance instDecEqExcept {ε α : Type} [DecidableEq ε] [DecidableEq α] :
    DecidableEq (Except ε α) := fun a b =>
  match a, b with
  | Except.error e, Except.error f =>
    if h : e = f then isTrue (by rw [h])
    else isFalse (by intro he; cases he; exact h rfl)
  | Except.error _, Except.ok _ => isFalse (by intro h; cases h)
  | Except.ok _, Except.error _ => isFalse (by intro h; cases h)
  | Except.ok x, Except.ok y =>
    if h : x = y then isTrue (by rw [h])
    else isFalse (by intro he; cases he; exact h rfl)

/-- True when an Except value carries a success, mirroring err == nil. -/
def exceptOk {α : Type} : Except String α → Bool
  | Except.ok _ => true
  | Except.error _ => false

/-- An AWS credentials object as produced by a factory call. The id field
distinguishes distinct credential objects; getResult is the outcome of the
Get probe on this object (the retrieved value, or an error). -/
structure Creds where
  id : Nat
  getResult : Except String Nat
deriving Repr, DecidableEq

/-- Creds.Get models (*credentials.Credentials).Get, returning the
credentials value or an error. -/
def Creds.Get (c : Creds) : Except String Nat := c.getResult

/-- A logger is an opaque sink identifier; 0 stands for log.NewNopLogger().
Emitted log output is modelled as data returned by the loop functions. -/
abbrev Logger := Nat

/-- Config represents optional settings (config source file). The period is
a duration in nanoseconds, matching time.Duration. -/
structure Config where
  logger : Logger
  period : Nat
deriving Repr, DecidableEq

/-- The defaults set by NewSwapper and NewRefresher before options run:
no-op logger and a 55 minute period. -/
def defaultConfig : Config :=
  { logger := 0, period := 55 * 60 * 1000000000 }

/-- Opt models the Option functional-option type of the config source. -/
inductive Opt where
  | withLogger (l : Logger)
  | withPeriod (p : Nat)
deriving Repr, DecidableEq

/-- Application of one functional option to a Config. -/
def applyOpt (c : Config) : Opt → Config
  | Opt.withLogger l => { c with logger := l }
  | Opt.withPeriod p => { c with period := p }

/-- The option-application loop shared by NewSwapper and NewRefresher. -/
def applyOpts (opts : List Opt) (c : Config) : Config :=
  opts.foldl applyOpt c

/-- The contents of the atomic.Value cache cell, as distinguished by the
read path of the signing hook: never stored into (Load returns nil), a
non-nil *credentials.Credentials, a typed nil *credentials.Credentials,
or a value of some unexpected dynamic type. -/
inductive CacheCell where
  | empty
  | creds (c : Creds)
  | nilCreds
  | other
deriving Repr, DecidableEq

/-- True when the cell holds a non-nil value of the credentials type. -/
def CacheCell.isCreds : CacheCell → Bool
  | CacheCell.creds _ => true
  | _ => false

/-- NewCreds, the credential factory type. The Go factory is an arbitrary
closure; it is determinized as a sequence of outcomes indexed by the
invocation number. -/
abbrev Factory := Nat → Except String Creds

/-- Swapper state: configuration, the factory, the number of factory
invocations made so far (the determinization counter), and the cache cell. -/
structure Swapper where
  conf : Config
  newcreds : Factory
  calls : Nat
  cache : CacheCell

/-- Swapper.refresh: invoke the factory; on error return the wrapped error
without touching the cache; otherwise probe the new credentials with Get;
on error return the wrapped error without touching the cache; otherwise
store the credentials object into the cache cell and return success. -/
def Swapper.refresh (s : Swapper) : Swapper × Except String Unit :=
  match s.newcreds s.calls with
  | Except.error e =>
    ({ s with calls := s.calls + 1 },
     Except.error ("failed to create new credentials: " ++ e))
  | Except.ok creds =>
    match creds.Get with
    | Except.error e =>
      ({ s with calls := s.calls + 1 },
       Except.error ("failed to retrieve credentials value: " ++ e))
    | Except.ok _ =>
      ({ s with calls := s.calls + 1, cache := CacheCell.creds creds },
       Except.ok ())

/-- NewSwapper: reject a nil factory with a descriptive error; otherwise
build the Swapper with defaults, apply the options, run one synchronous
refresh, and fail construction if it fails. -/
def NewSwapper (newcreds : Option Factory) (opts : List Opt) :
    Except String Swapper :=
  match newcreds with
  | none => Except.error "newcreds cannot be nil"
  | some f =>
    let s : Swapper :=
      { conf := applyOpts opts defaultConfig
        newcreds := f
        calls := 0
        cache := CacheCell.empty }
    match s.refresh with
    | (_, Except.error e) => Except.error e
    | (s2, Except.ok _) => Except.ok s2

/-- A log entry: the msg value and, when present, the err value. -/
abbrev LogEntry := String × Option String

/-- One outcome of the select inside Run: the context fired, or the timer
ticked. -/
inductive Ev where
  | done
  | tick
deriving Repr, DecidableEq

/-- Swapper.Run over a finite schedule of select outcomes. On done the loop
returns (third component true); on a tick it calls refresh and logs the
failure message with the error when refresh fails; exhausting the schedule
without done means the loop is still blocked in select (third component
false). -/
def Swapper.RunLoop : Swapper → List Ev → Swapper × List LogEntry × Bool
  | s, [] => (s, [], false)
  | _s, Ev.done :: _ => (_s, [], true)
  | s, Ev.tick :: rest =>
    match s.refresh with
    | (s2, Except.error e) =>
      let r := Swapper.RunLoop s2 rest
      (r.1, ("failed to refresh aws credentials", some e) :: r.2.1, r.2.2)
    | (s2, Except.ok _) => Swapper.RunLoop s2 rest

/-- The fields of a v4.Signer the package touches: its Credentials pointer
(none models nil) and, as a stand-in for the remaining tunable signer
state mentioned in the Attach doc comment, the DisableURIPathEscaping
flag. -/
structure Signer where
  credentials : Option Creds
  disableURIPathEscaping : Bool
deriving Repr, DecidableEq

/-- The closure Attach appends to the signer options: load the cache cell,
type-assert to *credentials.Credentials; when the assertion succeeds and
the pointer is non-nil, set the signer Credentials field; otherwise log
the swap-failure message and leave the signer untouched. -/
def swapHookStep (cell : CacheCell) (signer : Signer) : Signer × List LogEntry :=
  match cell with
  | CacheCell.creds c => ({ signer with credentials := some c }, [])
  | _ => (signer, [("failed to swap aws credentials", none)])

/-- A caller-supplied signer option, run when a signer is materialized. -/
abbrev SignerOpt := Signer → Signer

/-- A handler body: given the cache contents at signing time and the fresh
signer, produce the tuned signer and any log output. -/
abbrev HandlerFn := CacheCell → Signer → Signer × List LogEntry

/-- A named handler of the client signing pipeline. -/
structure NamedHandler where
  name : String
  fn : HandlerFn

/-- The well-known name of the sign-request step,
v4.SignRequestHandler.Name. -/
def signRequestHandlerName : String := "v4.SignRequestHandler"

/-- Modelled from the spec: v4.BuildNamedHandler (SDK code not in this
repository) packages the option callbacks so they run in order on a
freshly materialized signer just before signing; Attach appends its
cache-reading swap closure after the caller-supplied options, so the
user options run first and the swap closure last. -/
def buildSignHook (opts : List SignerOpt) : HandlerFn :=
  fun cell signer => swapHookStep cell (opts.foldl (fun sg o => o sg) signer)

/-- The part of an SDK client the package touches: the Sign handler list. -/
structure Client where
  signHandlers : List NamedHandler

/-- Modelled from the spec: HandlerList.SwapNamed (SDK code not in this
repository) replaces every handler bearing the given name and reports
whether at least one was replaced; when the named step is absent it
reports false and the list is unchanged. -/
def swapNamed (l : List NamedHandler) (n : NamedHandler) :
    List NamedHandler × Bool :=
  (l.map (fun h => if h.name = n.name then n else h),
   l.any (fun h => decide (h.name = n.name)))

/-- Swapper.Attach: build the named sign handler from the caller options
plus the swap closure, and swap it into the client Sign handler list by
name, returning the success flag. The Swapper itself is only read, never
written: it is returned unchanged to make that frame condition explicit. -/
def Swapper.Attach (s : Swapper) (c : Client) (opts : List SignerOpt) :
    Swapper × Client × Bool :=
  let nh : NamedHandler :=
    { name := signRequestHandlerName, fn := buildSignHook opts }
  let r := swapNamed c.signHandlers nh
  (s, { signHandlers := r.1 }, r.2)

/-- A mutable credentials handle (*credentials.Credentials) as used by the
Refresher: its Get outcomes determinized by invocation number. -/
structure CredsHandle where
  getResults : Nat → Except String Nat

/-- Refresher state: configuration, the handle, and the number of Get
invocations made so far. -/
structure Refresher where
  conf : Config
  creds : CredsHandle
  gets : Nat

/-- NewRefresher: reject a nil handle with a descriptive error; otherwise
build the Refresher with defaults, apply the options, make one synchronous
Get, and fail construction with the wrapped error if it fails. -/
def NewRefresher (creds : Option CredsHandle) (opts : List Opt) :
    Except String Refresher :=
  match creds with
  | none => Except.error "creds cannot be nil"
  | some ch =>
    let r : Refresher :=
      { conf := applyOpts opts defaultConfig, creds := ch, gets := 0 }
    match ch.getResults r.gets with
    | Except.error e =>
      Except.error ("failed to retrieve credentials value: " ++ e)
    | Except.ok _ => Except.ok { r with gets := r.gets + 1 }

/-- Refresher.Run over a finite schedule of select outcomes, analogous to
Swapper.RunLoop: each tick calls Get on the handle and logs the failure
message with the error when Get fails. -/
def Refresher.RunLoop : Refresher → List Ev → Refresher × List LogEntry × Bool
  | r, [] => (r, [], false)
  | _r, Ev.done :: _ => (_r, [], true)
  | r, Ev.tick :: rest =>
    match r.creds.getResults r.gets with
    | Except.error e =>
      let k := Refresher.RunLoop { r with gets := r.gets + 1 } rest
      (k.1, ("failed to refresh aws credentials", some e) :: k.2.1, k.2.2)
    | Except.ok _ => Refresher.RunLoop { r with gets := r.gets + 1 } rest

/-- A concrete credentials object whose Get succeeds. -/
def goodCreds : Creds := { id := 1, getResult := Except.ok 11 }

/-- A concrete credentials object whose Get fails. -/
def badGetCreds : Creds := { id := 2, getResult := Except.error "expired" }

/-- A factory that always succeeds with goodCreds. -/
def okFactory : Factory := fun _ => Except.ok goodCreds

/-- A factory that always fails. -/
def failFactory : Factory := fun _ => Except.error "boom"

/-- A concrete Swapper whose next refresh succeeds. -/
def sOk : Swapper :=
  { conf := defaultConfig, newcreds := okFactory, calls := 0
    cache := CacheCell.empty }

/-- A concrete Swapper holding a previously published value, whose next
refresh fails at the factory. -/
def sFail : Swapper :=
  { conf := defaultConfig, newcreds := failFactory, calls := 0
    cache := CacheCell.creds goodCreds }

/-- The Swapper NewSwapper produces from okFactory and no options. -/
def swOk : Swapper :=
  { conf := defaultConfig, newcreds := okFactory, calls := 1
    cache := CacheCell.creds goodCreds }

/-- A concrete handle whose Get always succeeds. -/
def okHandle : CredsHandle := { getResults := fun _ => Except.ok 7 }

/-- A concrete handle whose Get always fails. -/
def failHandle : CredsHandle := { getResults := fun _ => Except.error "boom" }

/-- A concrete running Refresher over okHandle. -/
def rOk : Refresher := { conf := defaultConfig, creds := okHandle, gets := 1 }

/-- A concrete running Refresher over failHandle. -/
def rFail : Refresher :=
  { conf := defaultConfig, creds := failHandle, gets := 1 }

/-- A concrete signer with no credentials set. -/
def sampleSigner : Signer :=
  { credentials := none, disableURIPathEscaping := false }

/-- A named handler other than the sign-request step. -/
def noopHandler : NamedHandler :=
  { name := "core.ValidateReqSigHandler", fn := fun _ sg => (sg, []) }

/-- The pre-existing sign-request handler of a stock client. -/
def sdkSignHandler : NamedHandler :=
  { name := signRequestHandlerName, fn := fun _ sg => (sg, []) }

/-- A client whose pipeline contains the named sign-request step. -/
def clientWithSign : Client :=
  { signHandlers := [noopHandler, sdkSignHandler] }

/-- A client whose pipeline lacks the named sign-request step. -/
def clientNoSign : Client := { signHandlers := [noopHandler] }

/-- Equation lemma: refresh when the factory call fails. -/
theorem refresh_eq_factory_error {s : Swapper} {e : String}
    (hf : s.newcreds s.calls = Except.error e) :
    s.refresh = ({ s with calls := s.calls + 1 },
      Except.error ("failed to create new credentials: " ++ e)) := by
  unfold Swapper.refresh
  rw [hf]

/-- Equation lemma: refresh when the factory succeeds but Get fails. -/
theorem refresh_eq_get_error {s : Swapper} {c : Creds} {e : String}
    (hf : s.newcreds s.calls = Except.ok c) (hg : c.Get = Except.error e) :
    s.refresh = ({ s with calls := s.calls + 1 },
      Except.error ("failed to retrieve credentials value: " ++ e)) := by
  unfold Swapper.refresh
  rw [hf]
  dsimp only
  rw [hg]

/-- Equation lemma: refresh when the factory and Get both succeed. -/
theorem refresh_eq_ok {s : Swapper} {c : Creds} {v : Nat}
    (hf : s.newcreds s.calls = Except.ok c) (hg : c.Get = Except.ok v) :
    s.refresh = ({ s with calls := s.calls + 1, cache := CacheCell.creds c },
      Except.ok ()) := by
  unfold Swapper.refresh
  rw [hf]
  dsimp only
  rw [hg]

/-- Helper: a refresh that returns an error leaves the cache unchanged. -/
theorem refresh_error_cache {s s2 : Swapper} {e : String}
    (h : s.refresh = (s2, Except.error e)) : s2.cache = s.cache := by
  cases hf : s.newcreds s.calls with
  | error e2 =>
    rw [refresh_eq_factory_error hf] at h
    simp only [Prod.mk.injEq] at h
    rw [← h.1]
  | ok c =>
    cases hg : c.Get with
    | error e2 =>
      rw [refresh_eq_get_error hf hg] at h
      simp only [Prod.mk.injEq] at h
      rw [← h.1]
    | ok v =>
      rw [refresh_eq_ok hf hg] at h
      simp only [Prod.mk.injEq] at h
      exact absurd h.2 (by simp)

/-- Helper: a refresh that returns success came from a successful factory
call and a successful Get, and stored exactly that credentials object. -/
theorem refresh_ok_cache {s s2 : Swapper} {u : Unit}
    (h : s.refresh = (s2, Except.ok u)) :
    ∃ c, s.newcreds s.calls = Except.ok c ∧ (∃ v, c.Get = Except.ok v) ∧
      s2.cache = CacheCell.creds c := by
  cases hf : s.newcreds s.calls with
  | error e2 =>
    rw [refresh_eq_factory_error hf] at h
    simp only [Prod.mk.injEq] at h
    exact absurd h.2 (by simp)
  | ok c =>
    cases hg : c.Get with
    | error e2 =>
      rw [refresh_eq_get_error hf hg] at h
      simp only [Prod.mk.injEq] at h
      exact absurd h.2 (by simp)
    | ok v =>
      rw [refresh_eq_ok hf hg] at h
      simp only [Prod.mk.injEq] at h
      exact ⟨c, rfl, ⟨v, hg⟩, by rw [← h.1]⟩

/-- Equation lemma: NewSwapper when the first factory invocation fails. -/
theorem newSwapper_factory_error {f : Factory} {opts : List Opt} {e : String}
    (hf : f 0 = Except.error e) :
    NewSwapper (some f) opts =
      Except.error ("failed to create new credentials: " ++ e) := by
  unfold NewSwapper Swapper.refresh
  dsimp only
  rw [hf]

/-- Equation lemma: NewSwapper when the first factory invocation succeeds
but the validation Get fails. -/
theorem newSwapper_get_error {f : Factory} {opts : List Opt} {c : Creds}
    {e : String} (hf : f 0 = Except.ok c) (hg : c.Get = Except.error e) :
    NewSwapper (some f) opts =
      Except.error ("failed to retrieve credentials value: " ++ e) := by
  unfold NewSwapper Swapper.refresh
  dsimp only
  rw [hf]
  dsimp only
  rw [hg]

/-- Equation lemma: NewSwapper when the first factory invocation and the
validation Get both succeed. -/
theorem newSwapper_ok {f : Factory} {opts : List Opt} {c : Creds} {v : Nat}
    (hf : f 0 = Except.ok c) (hg : c.Get = Except.ok v) :
    NewSwapper (some f) opts = Except.ok
      { conf := applyOpts opts defaultConfig, newcreds := f, calls := 1
        cache := CacheCell.creds c } := by
  unfold NewSwapper Swapper.refresh
  dsimp only
  rw [hf]
  dsimp only
  rw [hg]

/-- Equation lemma: RunLoop on an exhausted schedule. -/
theorem runLoop_nil (s : Swapper) : Swapper.RunLoop s [] = (s, [], false) :=
  rfl

/-- Equation lemma: RunLoop when the context fires. -/
theorem runLoop_done (s : Swapper) (rest : List Ev) :
    Swapper.RunLoop s (Ev.done :: rest) = (s, [], true) := rfl

/-- Equation lemma: RunLoop on a tick whose refresh fails. -/
theorem runLoop_tick_error {s s2 : Swapper} {e : String}
    (h : s.refresh = (s2, Except.error e)) (rest : List Ev) :
    Swapper.RunLoop s (Ev.tick :: rest) =
      ((Swapper.RunLoop s2 rest).1,
       ("failed to refresh aws credentials", some e) ::
         (Swapper.RunLoop s2 rest).2.1,
       (Swapper.RunLoop s2 rest).2.2) := by
  conv_lhs => unfold Swapper.RunLoop
  rw [h]

/-- Equation lemma: RunLoop on a tick whose refresh succeeds. -/
theorem runLoop_tick_ok {s s2 : Swapper} {u : Unit}
    (h : s.refresh = (s2, Except.ok u)) (rest : List Ev) :
    Swapper.RunLoop s (Ev.tick :: rest) = Swapper.RunLoop s2 rest := by
  conv_lhs => unfold Swapper.RunLoop
  rw [h]

/-- Equation lemma: Refresher.RunLoop on an exhausted schedule. -/
theorem rRunLoop_nil (r : Refresher) :
    Refresher.RunLoop r [] = (r, [], false) := rfl

/-- Equation lemma: Refresher.RunLoop when the context fires. -/
theorem rRunLoop_done (r : Refresher) (rest : List Ev) :
    Refresher.RunLoop r (Ev.done :: rest) = (r, [], true) := rfl

/-- Equation lemma: Refresher.RunLoop on a tick whose Get fails. -/
theorem rRunLoop_tick_error {r : Refresher} {e : String}
    (h : r.creds.getResults r.gets = Except.error e) (rest : List Ev) :
    Refresher.RunLoop r (Ev.tick :: rest) =
      ((Refresher.RunLoop { r with gets := r.gets + 1 } rest).1,
       ("failed to refresh aws credentials", some e) ::
         (Refresher.RunLoop { r with gets := r.gets + 1 } rest).2.1,
       (Refresher.RunLoop { r with gets := r.gets + 1 } rest).2.2) := by
  conv_lhs => unfold Refresher.RunLoop
  rw [h]

/-- Equation lemma: Refresher.RunLoop on a tick whose Get succeeds. -/
theorem rRunLoop_tick_ok {r : Refresher} {v : Nat}
    (h : r.creds.getResults r.gets = Except.ok v) (rest : List Ev) :
    Refresher.RunLoop r (Ev.tick :: rest) =
      Refresher.RunLoop { r with gets := r.gets + 1 } rest := by
  conv_lhs => unfold Refresher.RunLoop
  rw [h]

/-- Claim C1: a refresh in which the factory call fails, or in which the
validation Get of the freshly created credentials fails, returns the
wrapped error and leaves the cache cell exactly as it was; only when both
steps succeed is the new credentials object stored into the cache; hence
after a tick whose refresh fails, the cache still holds the value
published by the last successful refresh. -/
theorem refresh_failure_preserves_cache :
    (∀ (s s2 : Swapper) (e : String),
      s.refresh = (s2, Except.error e) → s2.cache = s.cache) ∧
    (∀ (s s2 : Swapper) (u : Unit), s.refresh = (s2, Except.ok u) →
      ∃ c, s.newcreds s.calls = Except.ok c ∧ (∃ v, c.Get = Except.ok v) ∧
        s2.cache = CacheCell.creds c) ∧
    (∀ s : Swapper, exceptOk (s.refresh).2 = false →
      (Swapper.RunLoop s [Ev.tick]).1.cache = s.cache) := by
  refine ⟨fun s s2 e h => refresh_error_cache h,
          fun s s2 u h => refresh_ok_cache h, ?_⟩
  intro s hfail
  cases hr : s.refresh with
  | mk s2 res =>
    cases res with
    | ok u => rw [hr] at hfail; simp [exceptOk] at hfail
    | error e =>
      rw [runLoop_tick_error hr [], runLoop_nil]
      exact refresh_error_cache hr

/-- Witness for C1 at concrete inputs: a Swapper holding a previously
published value whose refresh fails keeps that value through a tick, and a
Swapper whose refresh succeeds stores the new object. -/
theorem refresh_failure_preserves_cache_witness :
    (Swapper.RunLoop sFail [Ev.tick]).1.cache = sFail.cache ∧
    (∃ c, sOk.newcreds sOk.calls = Except.ok c ∧
      (∃ v, c.Get = Except.ok v) ∧
      ((sOk.refresh).1).cache = CacheCell.creds c) :=
  ⟨refresh_failure_preserves_cache.2.2 sFail (by rfl),
   refresh_failure_preserves_cache.2.1 sOk (sOk.refresh).1 () (by rfl)⟩

/-- Claim C2: for a non-nil factory, NewSwapper succeeds if and only if the
first factory invocation succeeds and the returned credentials pass the
Get validation; otherwise it returns an error. -/
theorem newSwapper_ok_iff (f : Factory) (opts : List Opt) :
    exceptOk (NewSwapper (some f) opts) = true ↔
      ∃ c, f 0 = Except.ok c ∧ ∃ v, c.Get = Except.ok v := by
  constructor
  · intro h
    cases hf : f 0 with
    | error e =>
      rw [newSwapper_factory_error hf] at h
      simp [exceptOk] at h
    | ok c =>
      cases hg : c.Get with
      | error e =>
        rw [newSwapper_get_error hf hg] at h
        simp [exceptOk] at h
      | ok v => exact ⟨c, rfl, v, hg⟩
  · rintro ⟨c, hf, v, hg⟩
    rw [newSwapper_ok hf hg]
    rfl

/-- Witness for C2 at a concrete input: construction from okFactory
succeeds. -/
theorem newSwapper_ok_iff_witness :
    exceptOk (NewSwapper (some okFactory) []) = true :=
  (newSwapper_ok_iff okFactory []).mpr ⟨goodCreds, rfl, 11, rfl⟩

/-- Claim C3: publishing a credentials object into the cache via a
successful refresh and then reading the cell through the signing hook
returns exactly that object: the hook sets the signer Credentials field to
it, logs nothing, and touches no other signer field. -/
theorem publish_then_read_roundtrip (s s2 : Swapper) (sg : Signer)
    (h : s.refresh = (s2, Except.ok ())) :
    ∃ c, s2.cache = CacheCell.creds c ∧
      (swapHookStep s2.cache sg).1.credentials = some c ∧
      (swapHookStep s2.cache sg).2 = [] ∧
      (swapHookStep s2.cache sg).1.disableURIPathEscaping =
        sg.disableURIPathEscaping := by
  obtain ⟨c, hf, hv, hcache⟩ := refresh_ok_cache h
  refine ⟨c, hcache, ?_, ?_, ?_⟩ <;> rw [hcache] <;> rfl

/-- Witness for C3 at a concrete input: the refresh of sOk publishes
goodCreds and the hook reads it back into a concrete signer. -/
theorem publish_then_read_roundtrip_witness :
    ∃ c, ((sOk.refresh).1).cache = CacheCell.creds c ∧
      (swapHookStep ((sOk.refresh).1).cache sampleSigner).1.credentials =
        some c ∧
      (swapHookStep ((sOk.refresh).1).cache sampleSigner).2 = [] ∧
      (swapHookStep ((sOk.refresh).1).cache sampleSigner).1.disableURIPathEscaping =
        sampleSigner.disableURIPathEscaping :=
  publish_then_read_roundtrip sOk (sOk.refresh).1 sampleSigner (by rfl)

/-- Claim C4: when the cache cell is empty or holds a value of an
unexpected type, the signing hook emits exactly one diagnostic log entry
and returns the signer completely unchanged; being a total function it
never fails the request path. -/
theorem hook_cache_miss_frame (cell : CacheCell) (sg : Signer)
    (h : cell = CacheCell.empty ∨ cell = CacheCell.other) :
    swapHookStep cell sg =
      (sg, [("failed to swap aws credentials", none)]) := by
  rcases h with h | h <;> rw [h] <;> rfl

/-- Witness for C4 at a concrete input: the empty cell and a concrete
signer. -/
theorem hook_cache_miss_frame_witness :
    swapHookStep CacheCell.empty sampleSigner =
      (sampleSigner, [("failed to swap aws credentials", none)]) :=
  hook_cache_miss_frame CacheCell.empty sampleSigner (Or.inl rfl)

/-- Claim C5: NewSwapper with a nil factory and NewRefresher with a nil
credentials handle each return immediately with the descriptive error of
the source, for any options. -/
theorem nil_inputs_fail (opts : List Opt) :
    NewSwapper none opts = Except.error "newcreds cannot be nil" ∧
    NewRefresher none opts = Except.error "creds cannot be nil" :=
  ⟨rfl, rfl⟩

/-- Helper: replacing by name is the identity when no handler matches. -/
theorem map_swap_no_match {l : List NamedHandler} {nm : String}
    {n : NamedHandler} (h : ∀ x ∈ l, x.name ≠ nm) :
    l.map (fun x => if x.name = nm then n else x) = l := by
  induction l with
  | nil => rfl
  | cons a t ih =>
    simp only [List.map_cons]
    rw [if_neg (h a (List.mem_cons_self a t)),
        ih (fun x hx => h x (List.mem_cons_of_mem a hx))]

/-- Helper: the swapped flag is false when no handler matches. -/
theorem any_swap_no_match {l : List NamedHandler} {nm : String}
    (h : ∀ x ∈ l, x.name ≠ nm) :
    (l.any fun x => decide (x.name = nm)) = false := by
  rw [List.any_eq_false]
  intro x hx
  simpa using h x hx

/-- Helper: the swapped flag is true when some handler matches. -/
theorem any_swap_match {l : List NamedHandler} {nm : String}
    (h : ∃ x ∈ l, x.name = nm) :
    (l.any fun x => decide (x.name = nm)) = true := by
  rw [List.any_eq_true]
  obtain ⟨x, hx, he⟩ := h
  exact ⟨x, hx, by simp [he]⟩

/-- Claim C6: when no handler in the client Sign pipeline bears the
sign-request name, Attach returns false and changes nothing, neither the
Swapper nor the client; when some handler bears the name, Attach returns
true, still leaves the Swapper untouched, and the pipeline is the old one
with every handler of that name replaced by the freshly built hook
handler. -/
theorem attach_swaps_named_handler (s : Swapper) (c : Client)
    (opts : List SignerOpt) :
    ((∀ h ∈ c.signHandlers, h.name ≠ signRequestHandlerName) →
      Swapper.Attach s c opts = (s, c, false)) ∧
    ((∃ h ∈ c.signHandlers, h.name = signRequestHandlerName) →
      (Swapper.Attach s c opts).2.2 = true ∧
      (Swapper.Attach s c opts).1 = s ∧
      (Swapper.Attach s c opts).2.1.signHandlers =
        c.signHandlers.map (fun h =>
          if h.name = signRequestHandlerName then
            { name := signRequestHandlerName, fn := buildSignHook opts }
          else h)) := by
  constructor
  · intro h
    unfold Swapper.Attach swapNamed
    dsimp only
    rw [map_swap_no_match h, any_swap_no_match h]
  · intro h
    unfold Swapper.Attach swapNamed
    dsimp only
    exact ⟨any_swap_match h, rfl, rfl⟩

/-- Witness for C6 at concrete inputs: a client without the named step is
returned unchanged with a false flag, and a client with the named step
yields a true flag. -/
theorem attach_swaps_named_handler_witness :
    Swapper.Attach sFail clientNoSign [] = (sFail, clientNoSign, false) ∧
    (Swapper.Attach sOk clientWithSign []).2.2 = true :=
  ⟨(attach_swaps_named_handler sFail clientNoSign []).1 (by decide),
   ((attach_swaps_named_handler sOk clientWithSign []).2 (by decide)).1⟩

/-- Helper: events scheduled after the first done are never processed. -/
theorem swapper_stop_aux (pre : List Ev) : ∀ (s : Swapper) (post : List Ev),
    Swapper.RunLoop s (pre ++ Ev.done :: post) =
      Swapper.RunLoop s (pre ++ [Ev.done]) := by
  induction pre with
  | nil => intro s post; rfl
  | cons e t ih =>
    intro s post
    cases e with
    | done => rfl
    | tick =>
      simp only [List.cons_append]
      cases hr : s.refresh with
      | mk s2 res =>
        cases res with
        | error er =>
          rw [runLoop_tick_error hr (t ++ Ev.done :: post),
              runLoop_tick_error hr (t ++ [Ev.done]), ih s2 post]
        | ok u =>
          rw [runLoop_tick_ok hr (t ++ Ev.done :: post),
              runLoop_tick_ok hr (t ++ [Ev.done]), ih s2 post]

/-- Helper: the Swapper loop reports returned when done is scheduled. -/
theorem swapper_done_aux (evs : List Ev) : ∀ s : Swapper, Ev.done ∈ evs →
    (Swapper.RunLoop s evs).2.2 = true := by
  induction evs with
  | nil => intro s h; cases h
  | cons e t ih =>
    intro s h
    cases e with
    | done => rfl
    | tick =>
      have ht : Ev.done ∈ t := by
        rcases List.mem_cons.mp h with h1 | h1
        · exact Ev.noConfusion h1
        · exact h1
      cases hr : s.refresh with
      | mk s2 res =>
        cases res with
        | error er => rw [runLoop_tick_error hr t]; exact ih s2 ht
        | ok u => rw [runLoop_tick_ok hr t]; exact ih s2 ht

/-- Helper: the Swapper loop never reports returned without a done. -/
theorem swapper_no_done_aux (evs : List Ev) : ∀ s : Swapper, Ev.done ∉ evs →
    (Swapper.RunLoop s evs).2.2 = false := by
  induction evs with
  | nil => intro s h; rfl
  | cons e t ih =>
    intro s h
    cases e with
    | done => exact absurd (List.mem_cons_self _ _) h
    | tick =>
      have ht : Ev.done ∉ t := fun hm => h (List.mem_cons_of_mem _ hm)
      cases hr : s.refresh with
      | mk s2 res =>
        cases res with
        | error er => rw [runLoop_tick_error hr t]; exact ih s2 ht
        | ok u => rw [runLoop_tick_ok hr t]; exact ih s2 ht

/-- Helper: events scheduled after the first done are never processed by
the Refresher loop. -/
theorem refresher_stop_aux (pre : List Ev) :
    ∀ (r : Refresher) (post : List Ev),
    Refresher.RunLoop r (pre ++ Ev.done :: post) =
      Refresher.RunLoop r (pre ++ [Ev.done]) := by
  induction pre with
  | nil => intro r post; rfl
  | cons e t ih =>
    intro r post
    cases e with
    | done => rfl
    | tick =>
      simp only [List.cons_append]
      cases hr : r.creds.getResults r.gets with
      | error er =>
        rw [rRunLoop_tick_error hr (t ++ Ev.done :: post),
            rRunLoop_tick_error hr (t ++ [Ev.done]), ih _ post]
      | ok v =>
        rw [rRunLoop_tick_ok hr (t ++ Ev.done :: post),
            rRunLoop_tick_ok hr (t ++ [Ev.done]), ih _ post]

/-- Helper: the Refresher loop reports returned when done is scheduled. -/
theorem refresher_done_aux (evs : List Ev) : ∀ r : Refresher,
    Ev.done ∈ evs → (Refresher.RunLoop r evs).2.2 = true := by
  induction evs with
  | nil => intro r h; cases h
  | cons e t ih =>
    intro r h
    cases e with
    | done => rfl
    | tick =>
      have ht : Ev.done ∈ t := by
        rcases List.mem_cons.mp h with h1 | h1
        · exact Ev.noConfusion h1
        · exact h1
      cases hr : r.creds.getResults r.gets with
      | error er => rw [rRunLoop_tick_error hr t]; exact ih _ ht
      | ok v => rw [rRunLoop_tick_ok hr t]; exact ih _ ht

/-- Helper: the Refresher loop never reports returned without a done. -/
theorem refresher_no_done_aux (evs : List Ev) : ∀ r : Refresher,
    Ev.done ∉ evs → (Refresher.RunLoop r evs).2.2 = false := by
  induction evs with
  | nil => intro r h; rfl
  | cons e t ih =>
    intro r h
    cases e with
    | done => exact absurd (List.mem_cons_self _ _) h
    | tick =>
      have ht : Ev.done ∉ t := fun hm => h (List.mem_cons_of_mem _ hm)
      cases hr : r.creds.getResults r.gets with
      | error er => rw [rRunLoop_tick_error hr t]; exact ih _ ht
      | ok v => rw [rRunLoop_tick_ok hr t]; exact ih _ ht

/-- Claim C7: for both loops, once the done signal occurs the schedule
beyond it is irrelevant (no further tick is processed) and the loop
reports that it returned; without a done signal the loop never returns, no
matter how many ticks fail. -/
theorem run_cancellation :
    (∀ (s : Swapper) (pre post : List Ev),
      Swapper.RunLoop s (pre ++ Ev.done :: post) =
        Swapper.RunLoop s (pre ++ [Ev.done])) ∧
    (∀ (s : Swapper) (evs : List Ev), Ev.done ∈ evs →
      (Swapper.RunLoop s evs).2.2 = true) ∧
    (∀ (s : Swapper) (evs : List Ev), Ev.done ∉ evs →
      (Swapper.RunLoop s evs).2.2 = false) ∧
    (∀ (r : Refresher) (pre post : List Ev),
      Refresher.RunLoop r (pre ++ Ev.done :: post) =
        Refresher.RunLoop r (pre ++ [Ev.done])) ∧
    (∀ (r : Refresher) (evs : List Ev), Ev.done ∈ evs →
      (Refresher.RunLoop r evs).2.2 = true) ∧
    (∀ (r : Refresher) (evs : List Ev), Ev.done ∉ evs →
      (Refresher.RunLoop r evs).2.2 = false) :=
  ⟨fun s pre post => swapper_stop_aux pre s post,
   fun s evs h => swapper_done_aux evs s h,
   fun s evs h => swapper_no_done_aux evs s h,
   fun r pre post => refresher_stop_aux pre r post,
   fun r evs h => refresher_done_aux evs r h,
   fun r evs h => refresher_no_done_aux evs r h⟩

/-- Witness for C7 at concrete inputs: a schedule with a done in the
middle, a schedule with a done, and a schedule of failing ticks without
one. -/
theorem run_cancellation_witness :
    Swapper.RunLoop sOk [Ev.tick, Ev.done, Ev.tick] =
      Swapper.RunLoop sOk [Ev.tick, Ev.done] ∧
    (Swapper.RunLoop sOk [Ev.tick, Ev.done]).2.2 = true ∧
    (Refresher.RunLoop rFail [Ev.tick, Ev.tick]).2.2 = false :=
  ⟨run_cancellation.1 sOk [Ev.tick] [Ev.tick],
   run_cancellation.2.1 sOk [Ev.tick, Ev.done] (by decide),
   run_cancellation.2.2.2.2.2 rFail [Ev.tick, Ev.tick] (by decide)⟩

/-- Counterexample for C8: at a concrete failing tick the loop logs the
message "failed to refresh aws credentials", not "failed to refresh
credentials", and at a concrete signing-time cache miss the hook logs
"failed to swap aws credentials", not "failed to swap credentials". -/
theorem diagnostics_messages_counterexample :
    (Swapper.RunLoop sFail [Ev.tick, Ev.done]).2.1.map Prod.fst =
      ["failed to refresh aws credentials"] ∧
    ¬ ((Swapper.RunLoop sFail [Ev.tick, Ev.done]).2.1.map Prod.fst =
      ["failed to refresh credentials"]) ∧
    (swapHookStep CacheCell.empty sampleSigner).2.map Prod.fst =
      ["failed to swap aws credentials"] ∧
    ¬ ((swapHookStep CacheCell.empty sampleSigner).2.map Prod.fst =
      ["failed to swap credentials"]) := by
  refine ⟨rfl, by decide, rfl, by decide⟩

/-- Helper: every log entry a Swapper run emits bears the refresh-failure
message of the source together with an error value. -/
theorem swapper_logs_aux (evs : List Ev) : ∀ s : Swapper,
    ∀ p ∈ (Swapper.RunLoop s evs).2.1,
      p.1 = "failed to refresh aws credentials" ∧ p.2.isSome = true := by
  induction evs with
  | nil => intro s p hp; exact absurd hp (List.not_mem_nil p)
  | cons e t ih =>
    intro s p hp
    cases e with
    | done => exact absurd hp (List.not_mem_nil p)
    | tick =>
      cases hr : s.refresh with
      | mk s2 res =>
        cases res with
        | error er =>
          rw [runLoop_tick_error hr t] at hp
          rcases List.mem_cons.mp hp with h1 | h1
          · rw [h1]; exact ⟨rfl, rfl⟩
          · exact ih s2 p h1
        | ok u =>
          rw [runLoop_tick_ok hr t] at hp
          exact ih s2 p hp

/-- Helper: every log entry a Refresher run emits bears the
refresh-failure message of the source together with an error value. -/
theorem refresher_logs_aux (evs : List Ev) : ∀ r : Refresher,
    ∀ p ∈ (Refresher.RunLoop r evs).2.1,
      p.1 = "failed to refresh aws credentials" ∧ p.2.isSome = true := by
  induction evs with
  | nil => intro r p hp; exact absurd hp (List.not_mem_nil p)
  | cons e t ih =>
    intro r p hp
    cases e with
    | done => exact absurd hp (List.not_mem_nil p)
    | tick =>
      cases hr : r.creds.getResults r.gets with
      | error er =>
        rw [rRunLoop_tick_error hr t] at hp
        rcases List.mem_cons.mp hp with h1 | h1
        · rw [h1]; exact ⟨rfl, rfl⟩
        · exact ih _ p h1
      | ok v =>
        rw [rRunLoop_tick_ok hr t] at hp
        exact ih _ p hp

/-- Claim C8 amended: every log entry emitted by either run loop carries
the message "failed to refresh aws credentials" together with the error; a
tick whose refresh fails with error e emits exactly one such entry
carrying e; a signing-time cache miss emits exactly the entry "failed to
swap aws credentials" with no error. -/
theorem diagnostics_messages :
    (∀ (s : Swapper) (evs : List Ev),
      ∀ p ∈ (Swapper.RunLoop s evs).2.1,
        p.1 = "failed to refresh aws credentials" ∧ p.2.isSome = true) ∧
    (∀ (r : Refresher) (evs : List Ev),
      ∀ p ∈ (Refresher.RunLoop r evs).2.1,
        p.1 = "failed to refresh aws credentials" ∧ p.2.isSome = true) ∧
    (∀ (s s2 : Swapper) (e : String), s.refresh = (s2, Except.error e) →
      (Swapper.RunLoop s [Ev.tick]).2.1 =
        [("failed to refresh aws credentials", some e)]) ∧
    (∀ (cell : CacheCell) (sg : Signer), (∀ c, cell ≠ CacheCell.creds c) →
      (swapHookStep cell sg).2 =
        [("failed to swap aws credentials", none)]) := by
  refine ⟨fun s evs => swapper_logs_aux evs s,
          fun r evs => refresher_logs_aux evs r, ?_, ?_⟩
  · intro s s2 e h
    rw [runLoop_tick_error h [], runLoop_nil]
  · intro cell sg h
    cases cell with
    | creds c => exact absurd rfl (h c)
    | empty => rfl
    | nilCreds => rfl
    | other => rfl

/-- Witness for C8 amended at concrete inputs: the single entry of a
concrete failing run, a concrete failing tick, and a concrete cache
miss. -/
theorem diagnostics_messages_witness :
    ((("failed to refresh aws credentials",
        some "failed to create new credentials: boom") : LogEntry).1 =
      "failed to refresh aws credentials" ∧
     (("failed to refresh aws credentials",
        some "failed to create new credentials: boom") :
          LogEntry).2.isSome = true) ∧
    (Swapper.RunLoop sFail [Ev.tick]).2.1 =
      [("failed to refresh aws credentials",
        some "failed to create new credentials: boom")] ∧
    (swapHookStep CacheCell.other sampleSigner).2 =
      [("failed to swap aws credentials", none)] :=
  ⟨diagnostics_messages.1 sFail [Ev.tick, Ev.done]
     ("failed to refresh aws credentials",
      some "failed to create new credentials: boom") (by decide),
   diagnostics_messages.2.2.1 sFail (sFail.refresh).1
     "failed to create new credentials: boom" (by rfl),
   diagnostics_messages.2.2.2 CacheCell.other sampleSigner
     (fun c h => CacheCell.noConfusion h)⟩

/-- Helper: refresh preserves the cache holding a credentials value. -/
theorem refresh_preserves_isCreds {s : Swapper}
    (h : s.cache.isCreds = true) :
    ((s.refresh).1).cache.isCreds = true := by
  cases hr : s.refresh with
  | mk s2 res =>
    cases res with
    | error e =>
      have hc := refresh_error_cache hr
      show s2.cache.isCreds = true
      rw [hc]
      exact h
    | ok u =>
      obtain ⟨c, _, _, hc⟩ := refresh_ok_cache hr
      show s2.cache.isCreds = true
      rw [hc]
      rfl

/-- Helper: the run loop preserves the cache holding a credentials
value. -/
theorem runLoop_preserves_isCreds (evs : List Ev) : ∀ s : Swapper,
    s.cache.isCreds = true →
    ((Swapper.RunLoop s evs).1).cache.isCreds = true := by
  induction evs with
  | nil => intro s h; exact h
  | cons e t ih =>
    intro s h
    cases e with
    | done => exact h
    | tick =>
      cases hr : s.refresh with
      | mk s2 res =>
        have h2 : s2.cache.isCreds = true := by
          have h3 := refresh_preserves_isCreds h
          rw [hr] at h3
          exact h3
        cases res with
        | error e2 => rw [runLoop_tick_error hr t]; exact ih s2 h2
        | ok u => rw [runLoop_tick_ok hr t]; exact ih s2 h2

/-- Claim C10: a Swapper returned by a successful NewSwapper has a cache
cell holding a non-nil credentials value; refresh and the run loop
preserve that invariant; and on such a cell the signing hook never takes
its fallback branch: it logs nothing and always installs a credentials
value. -/
theorem cache_always_creds :
    (∀ (f : Factory) (opts : List Opt) (s : Swapper),
      NewSwapper (some f) opts = Except.ok s → s.cache.isCreds = true) ∧
    (∀ s : Swapper, s.cache.isCreds = true →
      ((s.refresh).1).cache.isCreds = true) ∧
    (∀ (s : Swapper) (evs : List Ev), s.cache.isCreds = true →
      ((Swapper.RunLoop s evs).1).cache.isCreds = true) ∧
    (∀ (cell : CacheCell) (sg : Signer), cell.isCreds = true →
      (swapHookStep cell sg).2 = [] ∧
      ∃ c, (swapHookStep cell sg).1.credentials = some c) := by
  refine ⟨?_, fun s h => refresh_preserves_isCreds h,
          fun s evs h => runLoop_preserves_isCreds evs s h, ?_⟩
  · intro f opts s h
    cases hf : f 0 with
    | error e =>
      rw [newSwapper_factory_error hf] at h
      exact Except.noConfusion h
    | ok c =>
      cases hg : c.Get with
      | error e =>
        rw [newSwapper_get_error hf hg] at h
        exact Except.noConfusion h
      | ok v =>
        rw [newSwapper_ok hf hg] at h
        rw [← Except.ok.inj h]
        rfl
  · intro cell sg h
    cases cell with
    | creds c => exact ⟨rfl, c, rfl⟩
    | empty => exact absurd h (by simp [CacheCell.isCreds])
    | nilCreds => exact absurd h (by simp [CacheCell.isCreds])
    | other => exact absurd h (by simp [CacheCell.isCreds])

/-- Witness for C10 at concrete inputs: the Swapper built from okFactory
and its cache after a further tick. -/
theorem cache_always_creds_witness :
    swOk.cache.isCreds = true ∧
    ((Swapper.RunLoop swOk [Ev.tick]).1).cache.isCreds = true :=
  ⟨cache_always_creds.1 okFactory [] swOk (by rfl),
   cache_always_creds.2.2.1 swOk [Ev.tick] (by rfl)⟩

end Awscreds
